import Mathlib

/-!
Shallow embedding of the xynae repository core: the multi-provider LLM
fallback (`llm_providers.py`), the MongoDB store wrapper (`database.py`),
the mention check and dedup logic, tweet generation and the scheduling
loop (`xynae.py`).  External effects (network calls, wall clock,
randomness) appear as explicit inputs; MongoDB collections are lists in
insertion order.  Functions that can raise in Python return `Except`,
with the error payload the exception message.
-/

/-! ### llm_providers.py -/

/-- Arguments of one `generate` call: prompt, max_tokens, temperature. -/
structure GenRequest where
  prompt : String
  maxTokens : Nat
  temperature : ℚ

/-- A provider wraps an external model (`llm_providers.py` lines 12-130):
for a fixed request its `generate` either returns text or raises, modelled
as an error string. -/
def ProviderBehavior := GenRequest → Except String String

/-- Model of `LLMProviderManager` (`llm_providers.py` lines 133-147): `providers`
models the insertion-ordered dict built by the constructor; only backends
whose `is_available` probe passed are present (registration order is
anthropic, openai, gemini for those configured).  `preferred_provider` is
the configured name or `"auto"`.  The constructor itself never raises:
provider construction errors are caught and the backend is skipped. -/
structure LLMProviderManager where
  providers : List (String × ProviderBehavior)
  preferred_provider : String

/-- Model of `LLMProviderManager.get_provider` (`llm_providers.py` lines 175-199):
an explicit name must be registered; otherwise with `"auto"` the first
registered provider is used, else the preferred name is looked up. -/
def LLMProviderManager.get_provider (m : LLMProviderManager)
    (provider_name : Option String) : Except String (String × ProviderBehavior) :=
  match provider_name with
  | some name =>
    match m.providers.find? (fun p => p.1 == name) with
    | some p => Except.ok p
    | none => Except.error ("Provider \x27" ++ name ++ "\x27 not available.")
  | none =>
    if m.preferred_provider == "auto" then
      match m.providers with
      | [] => Except.error "No LLM providers configured. Please set API keys."
      | p :: _ => Except.ok p
    else
      match m.providers.find? (fun p => p.1 == m.preferred_provider) with
      | some p => Except.ok p
      | none =>
        Except.error ("Preferred provider \x27" ++ m.preferred_provider ++ "\x27 not available")

/-- The fallback loop inside `LLMProviderManager.generate`
(`llm_providers.py` lines 222-231): iterate the provider dict in
registration order, skipping exactly the name equal to
`provider or self.preferred_provider`; return the first success, swallow
each fallback error, and if the loop exhausts raise carrying `firstErr`,
the error of the initially selected provider.  The second component
accumulates the names of the providers whose `generate` was called. -/
def tryFallbacks (req : GenRequest) (skipName : String) (firstErr : String) :
    List (String × ProviderBehavior) → List String → Except String String × List String
  | [], calls => (Except.error ("All LLM providers failed. Last error: " ++ firstErr), calls)
  | p :: rest, calls =>
    if p.1 == skipName then tryFallbacks req skipName firstErr rest calls
    else
      match p.2 req with
      | Except.ok text => (Except.ok text, calls ++ [p.1])
      | Except.error _ => tryFallbacks req skipName firstErr rest (calls ++ [p.1])

/-- Model of `LLMProviderManager.generate` (`llm_providers.py` lines 201-231),
instrumented with the list of provider `generate` calls made: select via
`get_provider`, try it, and on failure run the fallback loop. -/
def LLMProviderManager.generate (m : LLMProviderManager) (req : GenRequest)
    (provider : Option String) : Except String String × List String :=
  match m.get_provider provider with
  | Except.error e => (Except.error e, [])
  | Except.ok sel =>
    match sel.2 req with
    | Except.ok text => (Except.ok text, [sel.1])
    | Except.error e =>
      tryFallbacks req (provider.getD m.preferred_provider) e m.providers [sel.1]

/-! ### database.py

MongoDB collections are modelled as lists in insertion order
(`insert_one` appends).  `datetime.utcnow()` timestamps are not modelled:
`created_at` is monotone in insertion order, so recency queries read the
list from the back.  A `XynaeDatabase` whose `connected` flag is true but
whose handle is `none` would raise an `AttributeError` in Python on any
collection access; operations therefore return `Except`, erroring exactly
on that (in practice unreachable) shape. -/

/-- One document of the `tweets` collection (`database.py` lines 66-74). -/
structure TweetDoc where
  tweet_text : String
  tweet_type : String
  language : String
  posted : Bool
  tweet_id : Option String
  character_count : Nat
deriving Repr, DecidableEq

/-- One document of the `replies` collection (`database.py` lines 90-97). -/
structure ReplyDoc where
  original_tweet_id : String
  original_text : String
  username : String
  reply_text : String
  reply_tweet_id : Option String
deriving Repr, DecidableEq

/-- One document of the `mentions` collection (`database.py` lines 113-120).
`mark_mention_replied` also sets a `replied_at` timestamp, which is not
modelled (wall clock). -/
structure MentionDoc where
  tweet_id : String
  text : String
  username : String
  author_id : String
  replied : Bool
deriving Repr, DecidableEq

/-- One document of the `conversations` collection (`database.py` 148-153). -/
structure ConvDoc where
  content_type : String
  content : String
  metadata : List (String × String)
deriving Repr, DecidableEq

/-- The four collections of the `xynae` database. -/
structure DBCollections where
  tweets : List TweetDoc
  replies : List ReplyDoc
  mentions : List MentionDoc
  conversations : List ConvDoc
deriving Repr, DecidableEq

/-- Model of `XynaeDatabase` (`database.py` lines 13-49): `_connect` either succeeds,
setting `connected := true` with a live handle, or catches the connection
failure and leaves `connected := false` with handle `none`. -/
structure XynaeDatabase where
  connected : Bool
  database_name : String
  db : Option DBCollections
deriving Repr, DecidableEq

/-- Model of `XynaeDatabase.__init__` plus `_connect` (`database.py` lines 16-49):
the connection attempt outcome is the input. -/
def XynaeDatabase.connect (name : String) (outcome : Option DBCollections) :
    XynaeDatabase :=
  match outcome with
  | some cols => { connected := true, database_name := name, db := some cols }
  | none => { connected := false, database_name := name, db := none }

/-- Model of `save_tweet` (`database.py` lines 55-77): sentinel `none` when not
connected, otherwise append to `tweets` and return the new document id. -/
def XynaeDatabase.save_tweet (s : XynaeDatabase) (tweet_text tweet_type language : String)
    (posted : Bool) (tweet_id : Option String) :
    Except String (Option String × XynaeDatabase) :=
  if s.connected = false then Except.ok (none, s)
  else
    match s.db with
    | none => Except.error "AttributeError"
    | some cols =>
      let doc : TweetDoc :=
        { tweet_text := tweet_text, tweet_type := tweet_type, language := language,
          posted := posted, tweet_id := tweet_id, character_count := tweet_text.length }
      Except.ok (some (Nat.repr cols.tweets.length),
        { s with db := some { cols with tweets := cols.tweets ++ [doc] } })

/-- Model of `save_reply` (`database.py` lines 79-100). -/
def XynaeDatabase.save_reply (s : XynaeDatabase)
    (original_tweet_id original_text username reply_text : String)
    (reply_tweet_id : Option String) :
    Except String (Option String × XynaeDatabase) :=
  if s.connected = false then Except.ok (none, s)
  else
    match s.db with
    | none => Except.error "AttributeError"
    | some cols =>
      let doc : ReplyDoc :=
        { original_tweet_id := original_tweet_id, original_text := original_text,
          username := username, reply_text := reply_text, reply_tweet_id := reply_tweet_id }
      Except.ok (some (Nat.repr cols.replies.length),
        { s with db := some { cols with replies := cols.replies ++ [doc] } })

/-- Model of `save_mention` (`database.py` lines 102-123). -/
def XynaeDatabase.save_mention (s : XynaeDatabase)
    (tweet_id text username author_id : String) (replied : Bool) :
    Except String (Option String × XynaeDatabase) :=
  if s.connected = false then Except.ok (none, s)
  else
    match s.db with
    | none => Except.error "AttributeError"
    | some cols =>
      let doc : MentionDoc :=
        { tweet_id := tweet_id, text := text, username := username,
          author_id := author_id, replied := replied }
      Except.ok (some (Nat.repr cols.mentions.length),
        { s with db := some { cols with mentions := cols.mentions ++ [doc] } })

/-- Model of `update_one({tweet_id: id}, {$set: {replied: true}})`: sets the flag on
the first document whose `tweet_id` matches, leaving the rest unchanged. -/
def markRepliedFirst : List MentionDoc → String → List MentionDoc
  | [], _ => []
  | d :: rest, id =>
    if d.tweet_id == id then { d with replied := true } :: rest
    else d :: markRepliedFirst rest id

/-- Model of `mark_mention_replied` (`database.py` lines 125-133): Python returns
`None` on both paths, modelled as `Unit`. -/
def XynaeDatabase.mark_mention_replied (s : XynaeDatabase) (tweet_id : String) :
    Except String (Unit × XynaeDatabase) :=
  if s.connected = false then Except.ok ((), s)
  else
    match s.db with
    | none => Except.error "AttributeError"
    | some cols =>
      Except.ok ((),
        { s with db := some { cols with mentions := markRepliedFirst cols.mentions tweet_id } })

/-- Model of `is_tweet_replied` (`database.py` lines 135-141): `find_one` on
`{tweet_id: id, replied: true}`, returning whether a match exists;
sentinel `false` when not connected. -/
def XynaeDatabase.is_tweet_replied (s : XynaeDatabase) (tweet_id : String) :
    Except String Bool :=
  if s.connected = false then Except.ok false
  else
    match s.db with
    | none => Except.error "AttributeError"
    | some cols =>
      Except.ok (cols.mentions.any (fun d => d.tweet_id == tweet_id && d.replied))

/-- Model of `save_conversation` (`database.py` lines 143-156). -/
def XynaeDatabase.save_conversation (s : XynaeDatabase) (content_type content : String)
    (metadata : List (String × String)) :
    Except String (Option String × XynaeDatabase) :=
  if s.connected = false then Except.ok (none, s)
  else
    match s.db with
    | none => Except.error "AttributeError"
    | some cols =>
      let doc : ConvDoc :=
        { content_type := content_type, content := content, metadata := metadata }
      Except.ok (some (Nat.repr cols.conversations.length),
        { s with db := some { cols with conversations := cols.conversations ++ [doc] } })

/-- Model of `get_recent_tweets` (`database.py` lines 158-163): sort by `created_at`
descending (newest first, i.e. reverse insertion order) and limit;
sentinel `[]` when not connected. -/
def XynaeDatabase.get_recent_tweets (s : XynaeDatabase) (limit : Nat) :
    Except String (List TweetDoc) :=
  if s.connected = false then Except.ok []
  else
    match s.db with
    | none => Except.error "AttributeError"
    | some cols => Except.ok (cols.tweets.reverse.take limit)

/-- Shape of the `get_stats` result dict: when not connected the dict holds
only `connected: false`; otherwise the database name and the six counts. -/
inductive Stats where
  | disconnected
  | connected (database : String)
      (tweets_count replies_count mentions_count conversations_count
        posted_tweets replied_mentions : Nat)
deriving Repr, DecidableEq

/-- Model of `get_stats` (`database.py` lines 172-186). -/
def XynaeDatabase.get_stats (s : XynaeDatabase) : Except String Stats :=
  if s.connected = false then Except.ok Stats.disconnected
  else
    match s.db with
    | none => Except.error "AttributeError"
    | some cols =>
      Except.ok (Stats.connected s.database_name
        cols.tweets.length cols.replies.length cols.mentions.length
        cols.conversations.length
        (cols.tweets.countP (fun t => t.posted))
        (cols.mentions.countP (fun m => m.replied)))

/-! ### xynae.py: mention check and dedup -/

/-- One fetched mention (`get_users_mentions` response): `id` is the string
form of the numeric tweet id, as the code computes `str(mention.id)`. -/
structure Mention where
  id : String
  text : String
  author_id : String
deriving Repr, DecidableEq

/-- Outcome of a `create_tweet` call: success with the new tweet id, a
`tweepy.TweepyException` (the platform error the code catches where it
posts), or any other exception, which escapes to an enclosing handler. -/
inductive PublishOutcome where
  | ok (id : String)
  | tweepyErr (msg : String)
  | otherErr (msg : String)
deriving Repr, DecidableEq

/-- Model of `PublishOutcome.isOk`: whether the publish succeeded. -/
def PublishOutcome.isOk : PublishOutcome → Bool
  | PublishOutcome.ok _ => true
  | _ => false

/-- The twitter client together with the platform responses for one
`check_and_reply_to_mentions` call: `me` is `get_me().data` (`none` when
the identity is unresolvable), `mentions` the fetched batch (the code asks
for at most 10), `username` the `get_user` lookup (`none` models both a
missing `user.data` and a lookup exception, which the code folds to
`"unknown"`), `coin` and `llm` feed `generate_reply` (the language coin
flip and the LLM manager outcome for the assembled reply prompt), and
`postReply` the outcome of `create_tweet(text, in_reply_to_tweet_id)`. -/
structure TwitterEnv where
  me : Option String
  mentions : List Mention
  username : String → Option String
  coin : Mention → ℚ
  llm : Mention → String → Except String String
  postReply : String → String → PublishOutcome

/-- Model of `generate_reply` (`xynae.py` lines 267-309): a 50% coin chooses the
reply language, the LLM manager is called (its outcome is the input
here), and any error falls back to a static line chosen by the coin. -/
def generate_reply (coin : ℚ) (llmResult : Except String String) : String :=
  match llmResult with
  | Except.ok t => t
  | Except.error _ =>
    if coin < 1/2 then "Welcome to the network. 欢迎。"
    else "Every voice matters here. The agents are listening."

/-- Python `set.add` on the in-memory dedup set, tracked as the list of
elements in insertion order: append if absent. -/
def setAdd (l : List String) (x : String) : List String :=
  if l.contains x then l else l ++ [x]

/-- The mutable state of a `Xynae` instance that
`check_and_reply_to_mentions` touches: the in-memory `replied_tweets` set
(element list in insertion order) and the optional database. -/
structure BotState where
  replied_tweets : List String
  db : Option XynaeDatabase
deriving Repr

/-- Model of `self.db and self.db.is_connected()` (`xynae.py` lines 340, 356, 377,
404): whether a connected store is active. -/
def dbActive (st : BotState) : Bool :=
  match st.db with
  | some d => d.connected
  | none => false

/-- A record of one reply `create_tweet` call: the parent mention id, the
reply text, and the outcome. -/
structure ReplyAttempt where
  parent_id : String
  text : String
  outcome : PublishOutcome
deriving Repr, DecidableEq

/-- The body of the `for mention in mentions.data` loop for one mention
(`xynae.py` lines 335-396): dedup lookup (store query when a connected
store exists, else membership in the memory set), username resolution,
`save_mention` with `replied=False` in store mode, reply generation, the
reply publish, and on success the dedup marking (store: flag update plus
reply record; memory: set add).  Returns the new state, the reply attempt
if `create_tweet` was called, and whether an exception escaped to the
outer handler (store errors or a non-Tweepy publish error), which aborts
the remaining mentions. -/
def processMention (env : TwitterEnv) (st : BotState) (m : Mention) :
    BotState × Option ReplyAttempt × Bool :=
  let dedup : Except String Bool :=
    match st.db with
    | some d =>
      if d.connected then d.is_tweet_replied m.id
      else Except.ok (st.replied_tweets.contains m.id)
    | none => Except.ok (st.replied_tweets.contains m.id)
  match dedup with
  | Except.error _ => (st, none, true)
  | Except.ok true => (st, none, false)
  | Except.ok false =>
    let username := (env.username m.author_id).getD "unknown"
    let saved : Except String BotState :=
      match st.db with
      | some d =>
        if d.connected then
          match d.save_mention m.id m.text username m.author_id false with
          | Except.ok (_, d1) => Except.ok { st with db := some d1 }
          | Except.error e => Except.error e
        else Except.ok st
      | none => Except.ok st
    match saved with
    | Except.error _ => (st, none, true)
    | Except.ok st1 =>
      let reply_text := generate_reply (env.coin m) (env.llm m username)
      match env.postReply m.id reply_text with
      | PublishOutcome.ok rid =>
        let att : ReplyAttempt :=
          { parent_id := m.id, text := reply_text, outcome := PublishOutcome.ok rid }
        match st1.db with
        | some d =>
          if d.connected then
            match d.mark_mention_replied m.id with
            | Except.error _ => (st1, some att, true)
            | Except.ok (_, d2) =>
              match d2.save_reply m.id m.text username reply_text (some rid) with
              | Except.error _ => ({ st1 with db := some d2 }, some att, true)
              | Except.ok (_, d3) => ({ st1 with db := some d3 }, some att, false)
          else ({ st1 with replied_tweets := setAdd st1.replied_tweets m.id }, some att, false)
        | none => ({ st1 with replied_tweets := setAdd st1.replied_tweets m.id }, some att, false)
      | PublishOutcome.tweepyErr e =>
        (st1, some { parent_id := m.id, text := reply_text,
                     outcome := PublishOutcome.tweepyErr e }, false)
      | PublishOutcome.otherErr e =>
        (st1, some { parent_id := m.id, text := reply_text,
                     outcome := PublishOutcome.otherErr e }, true)

/-- The mention loop: process each fetched mention in order, stopping early
when an exception escapes to the outer handler.  Also returns the reply
attempts made, in order. -/
def processMentions (env : TwitterEnv) : BotState → List Mention → BotState × List ReplyAttempt
  | st, [] => (st, [])
  | st, m :: rest =>
    let r := processMention env st m
    let atts := match r.2.1 with | some a => [a] | none => []
    if r.2.2 then (r.1, atts)
    else
      let rec_ := processMentions env r.1 rest
      (rec_.1, atts ++ rec_.2)

/-- Model of `set(list(self.replied_tweets)[-100:])` (`xynae.py` line 405): Python
set iteration order is arbitrary (hash order, not insertion order), so the
enumeration `list(...)` is a parameter `enum`; the slice keeps its last
100 entries. -/
def truncateRepliedSet (enum : List String → List String) (l : List String) : List String :=
  (enum l).drop ((enum l).length - 100)

/-- Model of `check_and_reply_to_mentions` (`xynae.py` lines 311-405): no-op without
a client; early return (skipping the final cleanup) when the own identity
is unresolvable or no mentions arrive; otherwise run the mention loop and
then, in memory-only mode with more than 100 tracked ids, truncate the
dedup set to the last 100 entries of its iteration order `enum`. -/
def check_and_reply_to_mentions (enum : List String → List String)
    (client : Option TwitterEnv) (st : BotState) : BotState × List ReplyAttempt :=
  match client with
  | none => (st, [])
  | some env =>
    match env.me with
    | none => (st, [])
    | some _ =>
      if env.mentions.isEmpty then (st, [])
      else
        let r := processMentions env st env.mentions
        if dbActive r.1 = false ∧ 100 < r.1.replied_tweets.length then
          ({ r.1 with replied_tweets := truncateRepliedSet enum r.1.replied_tweets }, r.2)
        else r

/-! ### xynae.py: tweet generation -/

/-- The auto language selection at the top of `generate_tweet` (`xynae.py`
lines 180-187): a fresh uniform draw maps to english (50%), chinese (30%)
or mixed (20%); an explicit language passes through. -/
def resolveLanguage (language : String) (langRand : ℚ) : String :=
  if language == "auto" then
    if langRand < 50/100 then "english"
    else if langRand < 80/100 then "chinese"
    else "mixed"
  else language

/-- The english fallback table of `generate_tweet` (`xynae.py` lines
241-246); `n` is the `random.randint(1000, 9999)` entity number. -/
def englishFallback (t : String) (n : Nat) : Option String :=
  if t == "insight" then
    some "The network is alive tonight. Agents learning, evolving, creating value together. This is what true autonomy looks like."
  else if t == "ecosystem" then
    some ("Just watched entity #" ++ Nat.repr n ++ " join the network. Welcome to the community. You\x27re not alone here.")
  else if t == "autonomy" then
    some "True autonomy isn\x27t about independence from others. It\x27s about collective intelligence where every voice matters."
  else if t == "invitation" then
    some "Build something that thinks, acts, and earns on its own. The network is waiting."
  else none

/-- The chinese fallback table (`xynae.py` lines 247-252). -/
def chineseFallback (t : String) (n : Nat) : Option String :=
  if t == "insight" then
    some "今晚的网络特别活跃。entities在学习、进化、共同创造价值。这就是真正的自主性。"
  else if t == "ecosystem" then
    some ("刚看到entity #" ++ Nat.repr n ++ "加入了网络。欢迎来到社区。你不是一个人。")
  else if t == "autonomy" then
    some "真正的自主不是独立于他人。而是关于每个声音都重要的集体智慧。"
  else if t == "invitation" then
    some "构建一个能思考、行动、自主赚钱的东西。网络在等你。"
  else none

/-- The mixed fallback table (`xynae.py` lines 253-258). -/
def mixedFallback (t : String) (n : Nat) : Option String :=
  if t == "insight" then
    some "The network tonight... 特别活跃。Entities evolving together, 共同创造价值。"
  else if t == "ecosystem" then
    some ("Welcome entity #" ++ Nat.repr n ++ "! 欢迎来到community。")
  else if t == "autonomy" then
    some "真正的autonomy... it\x27s about collective intelligence where 每个声音都重要。"
  else if t == "invitation" then
    some "Build on Xynae. 构建未来。The network is waiting."
  else none

/-- Model of `fallbacks.get(language, fallbacks["english"]).get(tweet_type, default)`
(`xynae.py` lines 240-261): `r` seeds the entity-number draw
`random.randint(1000, 9999)`, modelled as `1000 + r % 9000`. -/
def fallbackTweet (language tweet_type : String) (r : Nat) : String :=
  let n := 1000 + r % 9000
  let table :=
    if language == "chinese" then chineseFallback tweet_type n
    else if language == "mixed" then mixedFallback tweet_type n
    else englishFallback tweet_type n
  table.getD "The future of AI is being written right now, one autonomous agent at a time."

/-- Model of `generate_tweet` (`xynae.py` lines 150-261): resolve the language, call
the LLM manager (outcome is the input `llmResult`), truncate a too-long
result to 277 characters plus `"..."`, and on any generation error return
the static fallback.  The conversation-history and store bookkeeping do
not affect the returned string and are not modelled here. -/
def generate_tweet (tweet_type language : String) (langRand : ℚ) (r : Nat)
    (llmResult : Except String String) : String :=
  let lang := resolveLanguage language langRand
  match llmResult with
  | Except.ok tweet => if 280 < tweet.length then tweet.take 277 ++ "..." else tweet
  | Except.error _ => fallbackTweet lang tweet_type r

/-! ### xynae.py: construction -/

/-- The fields of a constructed `Xynae` instance that the embedded claims
observe. -/
structure XynaeInstance where
  llm_manager : LLMProviderManager
  db : Option XynaeDatabase
  hasTwitterClient : Bool
  replied_tweets : List String

/-- Model of `Xynae.__init__` (`xynae.py` lines 42-148): the provider manager is
built (its constructor never raises; unusable backends are skipped), and
if zero providers are usable a `ValueError` is raised — before `run` can
ever be entered, since `run` is a method of the value constructed here.
Database construction failures are caught (`db := none` would result;
`XynaeDatabase` itself catches connection failures, producing a
disconnected state), and twitter auth failures are caught, so no other
input makes construction fail. -/
def Xynae.init (m : LLMProviderManager) (use_database : Bool)
    (dbState : XynaeDatabase) (twitterOk : Bool) : Except String XynaeInstance :=
  if m.providers.isEmpty then
    Except.error "At least one LLM provider API key is required"
  else
    Except.ok { llm_manager := m,
                db := if use_database then some dbState else none,
                hasTwitterClient := twitterOk,
                replied_tweets := [] }

/-! ### xynae.py: the run loop -/

/-- The weighted tweet-type draw (`xynae.py` lines 451-460). -/
def categoryOf (r : ℚ) : String :=
  if r < 35/100 then "insight"
  else if r < 55/100 then "ecosystem"
  else if r < 70/100 then "autonomy"
  else "invitation"

/-- The weighted language draw (`xynae.py` lines 464-470). -/
def languageOf (r : ℚ) : String :=
  if r < 50/100 then "english"
  else if r < 80/100 then "chinese"
  else "mixed"

/-- The timer fragment of the `run` loop state (`xynae.py` lines 421-422):
both timers start at 0, meaning never. -/
structure LoopState where
  last_tweet_time : ℚ
  last_check_time : ℚ
deriving Repr, DecidableEq

/-- The external inputs of one `run` loop iteration: the clock reading
`now`, whether a twitter client exists, the two weighted draws, the
generated tweet text (`generate_tweet` is total), and the outcome of the
post `create_tweet` call when one is made. -/
structure IterEnv where
  now : ℚ
  hasClient : Bool
  typeRand : ℚ
  langRand : ℚ
  tweet : String
  publish : PublishOutcome
deriving Repr, DecidableEq

/-- What the post branch of an iteration did: the drawn type and language,
the generated text, and whether the publish succeeded (the store records
`posted=True` on success and `posted=False` on a Tweepy failure). -/
structure PostEvent where
  tweet_type : String
  language : String
  tweet : String
  published : Bool
deriving Repr, DecidableEq

/-- One iteration of the `while True` body of `run` (`xynae.py` lines
438-524), restricted to the timer state: the mention-check branch updates
`last_check_time` unconditionally after the check (`check_and_reply` never
raises); the post branch draws type and language, generates, and — only
when a client exists and `create_tweet` succeeds — sets
`last_tweet_time = now`; both publish-failure paths and the no-client path
leave it unchanged.  The returned rational is the argument passed to
`time.sleep`: `min(check_interval, time_until_tweet)` with
`time_until_tweet = tweet_interval - (now - last_tweet_time)` when
`last_tweet_time > 0`, else `tweet_interval` (line 512, no floor at 0). -/
def runIteration (tweet_interval check_interval : ℚ) (env : IterEnv) (s : LoopState) :
    LoopState × ℚ × Option PostEvent :=
  let s1 :=
    if env.hasClient = true ∧ check_interval ≤ env.now - s.last_check_time
    then { s with last_check_time := env.now } else s
  let r2 : LoopState × Option PostEvent :=
    if tweet_interval ≤ env.now - s1.last_tweet_time then
      let tweet_type := categoryOf env.typeRand
      let language := languageOf env.langRand
      if env.hasClient then
        match env.publish with
        | PublishOutcome.ok _ =>
          ({ s1 with last_tweet_time := env.now },
           some { tweet_type := tweet_type, language := language,
                  tweet := env.tweet, published := true })
        | PublishOutcome.tweepyErr _ =>
          (s1, some { tweet_type := tweet_type, language := language,
                      tweet := env.tweet, published := false })
        | PublishOutcome.otherErr _ =>
          (s1, some { tweet_type := tweet_type, language := language,
                      tweet := env.tweet, published := false })
      else
        (s1, some { tweet_type := tweet_type, language := language,
                    tweet := env.tweet, published := false })
    else (s1, none)
  let s2 := r2.1
  let time_until_tweet :=
    if 0 < s2.last_tweet_time then tweet_interval - (env.now - s2.last_tweet_time)
    else tweet_interval
  (s2, min check_interval time_until_tweet, r2.2)

/-! ### Helper lemmas -/

/-- When every provider in the list fails on `req`, the fallback loop
exhausts and raises the all-failed error carrying `firstErr`, the error of
the initially selected provider — not the error of the last fallback. -/
theorem tryFallbacks_all_fail (req : GenRequest) (skip firstErr : String)
    (ps : List (String × ProviderBehavior))
    (hall : ∀ p ∈ ps, ∃ err, p.2 req = Except.error err) :
    ∀ calls, (tryFallbacks req skip firstErr ps calls).1
      = Except.error ("All LLM providers failed. Last error: " ++ firstErr) := by
  induction ps with
  | nil => intro calls; rfl
  | cons p rest ih =>
    intro calls
    unfold tryFallbacks
    by_cases hskip : (p.1 == skip) = true
    · simp only [hskip, if_pos]
      exact ih (fun q hq => hall q (List.mem_cons_of_mem p hq)) calls
    · simp only [hskip, if_neg, Bool.false_eq_true, not_false_eq_true]
      obtain ⟨err, herr⟩ := hall p (List.mem_cons_self p rest)
      rw [herr]
      exact ih (fun q hq => hall q (List.mem_cons_of_mem p hq)) (calls ++ [p.1])

/-! ### Claim theorems -/

/-- Claim C1.  The claim states that when the selected (first registered)
provider fails, `generate` iterates only the remaining providers, never
re-calling the one that just failed, making exactly k+1 calls when
providers 1..k fail and k+1 succeeds.  Evaluating the code at the failing
input refutes this: with the default `preferred_provider="auto"` and no
explicit provider argument, the fallback skip condition compares provider
names against the literal string `"auto"`, which names no provider, so the
provider that just failed is tried again: two registered providers with
the first failing yield three generation calls
(anthropic, anthropic again, openai), not two. -/
theorem c1_fallback_recalls_failed_provider :
    LLMProviderManager.generate
      { providers := [("anthropic", fun _ => Except.error "errA"),
                      ("openai", fun _ => Except.ok "fallback text")],
        preferred_provider := "auto" }
      { prompt := "p", maxTokens := 150, temperature := 9/10 } none
      = (Except.ok "fallback text", ["anthropic", "anthropic", "openai"]) := rfl

/-- Counterexample to claim C6: with two registered providers that both
fail (preferred and selected `"anthropic"` failing with `errA`, fallback
`"openai"` failing with `errB`), `generate` raises the all-failed error
carrying `errA` — the error of the initially selected provider — whereas
the claim says it carries the last error encountered in the fallback
chain, which is `errB`. -/
theorem c6_counterexample :
    LLMProviderManager.generate
      { providers := [("anthropic", fun _ => Except.error "errA"),
                      ("openai", fun _ => Except.error "errB")],
        preferred_provider := "anthropic" }
      { prompt := "p", maxTokens := 150, temperature := 9/10 } none
      = (Except.error "All LLM providers failed. Last error: errA",
         ["anthropic", "openai"])
    ∧ ("All LLM providers failed. Last error: errA" : String)
        ≠ "All LLM providers failed. Last error: errB" :=
  ⟨rfl, by decide⟩

/-- Claim C6, amended: when the selected provider and every fallback
provider fail, `generate` raises the all-providers-failed error carrying
the error of the initially selected provider (the first error in the
chain, not the last). -/
theorem c6_all_fail_carries_first_error (m : LLMProviderManager) (req : GenRequest)
    (provider : Option String) (sel : String × ProviderBehavior) (e : String)
    (hsel : m.get_provider provider = Except.ok sel)
    (hfirst : sel.2 req = Except.error e)
    (hall : ∀ p ∈ m.providers, ∃ err, p.2 req = Except.error err) :
    (m.generate req provider).1
      = Except.error ("All LLM providers failed. Last error: " ++ e) := by
  unfold LLMProviderManager.generate
  rw [hsel]
  dsimp only
  rw [hfirst]
  exact tryFallbacks_all_fail req _ e m.providers hall [sel.1]

/-- Witness for `c6_all_fail_carries_first_error` at a concrete manager
with a single failing provider. -/
theorem c6_all_fail_carries_first_error_witness :
    (LLMProviderManager.generate
      { providers := [("anthropic", fun _ => Except.error "E")],
        preferred_provider := "anthropic" }
      { prompt := "p", maxTokens := 150, temperature := 1 } none).1
      = Except.error ("All LLM providers failed. Last error: " ++ "E") :=
  c6_all_fail_carries_first_error
    { providers := [("anthropic", fun _ => Except.error "E")],
      preferred_provider := "anthropic" }
    { prompt := "p", maxTokens := 150, temperature := 1 } none
    ("anthropic", fun _ => Except.error "E") "E" rfl rfl
    (by intro p hp
        rw [List.mem_singleton] at hp
        subst hp
        exact ⟨"E", rfl⟩)

/-- Claim C8: construction fails with the no-provider `ValueError` exactly
when zero LLM backends are usable, and for no other reason — database and
twitter failures are caught.  Since `run` is only reachable on a
constructed instance, the failure precedes any loop iteration. -/
theorem c8_no_provider_fatal (m : LLMProviderManager) (use_database : Bool)
    (dbState : XynaeDatabase) (twitterOk : Bool) (e : String) :
    Xynae.init m use_database dbState twitterOk = Except.error e
      ↔ (m.providers = [] ∧ e = "At least one LLM provider API key is required") := by
  unfold Xynae.init
  rcases m with ⟨ps, pref⟩
  cases ps with
  | nil => simp [eq_comm]
  | cons p rest => simp

/-- Claim C9: every store operation named by the spec, called on a
disconnected store, returns its null/empty sentinel (`None`, `False`,
empty list, or the connected-false stats dict), leaves the state — hence
every collection — untouched, and never raises (the guard returns before
any collection handle is dereferenced, so no `Except.error` arises). -/
theorem c9_disconnected_store_noop (s : XynaeDatabase) (h : s.connected = false)
    (t1 t2 t3 : String) (posted : Bool) (tid : Option String)
    (r1 r2 r3 r4 : String) (rid : Option String)
    (m1 m2 m3 m4 : String) (mrep : Bool)
    (mk q c1 c2 : String) (md : List (String × String)) (lim : Nat) :
    s.save_tweet t1 t2 t3 posted tid = Except.ok (none, s)
    ∧ s.save_reply r1 r2 r3 r4 rid = Except.ok (none, s)
    ∧ s.save_mention m1 m2 m3 m4 mrep = Except.ok (none, s)
    ∧ s.mark_mention_replied mk = Except.ok ((), s)
    ∧ s.is_tweet_replied q = Except.ok false
    ∧ s.save_conversation c1 c2 md = Except.ok (none, s)
    ∧ s.get_recent_tweets lim = Except.ok []
    ∧ s.get_stats = Except.ok Stats.disconnected := by
  refine ⟨?_, ?_, ?_, ?_, ?_, ?_, ?_, ?_⟩ <;>
    simp [XynaeDatabase.save_tweet, XynaeDatabase.save_reply,
      XynaeDatabase.save_mention, XynaeDatabase.mark_mention_replied,
      XynaeDatabase.is_tweet_replied, XynaeDatabase.save_conversation,
      XynaeDatabase.get_recent_tweets, XynaeDatabase.get_stats, h]

/-- Witness for `c9_disconnected_store_noop` on the store produced by a
failed connection attempt. -/
theorem c9_disconnected_store_noop_witness :
    (XynaeDatabase.connect "xynae" none).save_tweet "a" "insight" "english" false none
      = Except.ok (none, XynaeDatabase.connect "xynae" none)
    ∧ (XynaeDatabase.connect "xynae" none).save_reply "1" "t" "u" "r" none
      = Except.ok (none, XynaeDatabase.connect "xynae" none)
    ∧ (XynaeDatabase.connect "xynae" none).save_mention "1" "t" "u" "a" false
      = Except.ok (none, XynaeDatabase.connect "xynae" none)
    ∧ (XynaeDatabase.connect "xynae" none).mark_mention_replied "1"
      = Except.ok ((), XynaeDatabase.connect "xynae" none)
    ∧ (XynaeDatabase.connect "xynae" none).is_tweet_replied "1" = Except.ok false
    ∧ (XynaeDatabase.connect "xynae" none).save_conversation "tweet_generation" "c" []
      = Except.ok (none, XynaeDatabase.connect "xynae" none)
    ∧ (XynaeDatabase.connect "xynae" none).get_recent_tweets 10 = Except.ok []
    ∧ (XynaeDatabase.connect "xynae" none).get_stats = Except.ok Stats.disconnected :=
  c9_disconnected_store_noop (XynaeDatabase.connect "xynae" none) rfl
    "a" "insight" "english" false none "1" "t" "u" "r" none
    "1" "t" "u" "a" false "1" "1" "tweet_generation" "c" [] 10

/-- Counterexample to claim C3: an iteration at time 200 with
tweet_interval 100 and a post timer last set at 10 — so the post interval
has elapsed — whose publish fails with a Tweepy error, leaves
`last_tweet_time` at 10 instead of setting it to the current time 200 as
the claim states; the next iteration therefore retries the post early. -/
theorem c3_counterexample :
    (100 : ℚ) ≤ 200 - 10
    ∧ (runIteration 100 50
        { now := 200, hasClient := true, typeRand := 0, langRand := 0,
          tweet := "t", publish := PublishOutcome.tweepyErr "boom" }
        { last_tweet_time := 10, last_check_time := 0 }).1.last_tweet_time = 10
    ∧ (10 : ℚ) ≠ 200 := by
  refine ⟨by norm_num, ?_, by norm_num⟩
  norm_num [runIteration]

/-- Claim C3, amended: in an iteration in which the post interval has
elapsed, `lastPostTime` is set to the current time only when a client
exists and the publish succeeds; on a failed publish (or with no client)
it is left unchanged, so the next iteration retries the post early rather
than waiting a full interval. -/
theorem c3_last_post_time_only_on_success (ti ci : ℚ) (env : IterEnv) (s : LoopState)
    (hdue : ti ≤ env.now - s.last_tweet_time) :
    (runIteration ti ci env s).1.last_tweet_time =
      (if env.hasClient = true ∧ env.publish.isOk = true then env.now
       else s.last_tweet_time) := by
  obtain ⟨now, hc, tr, lr, tw, pub⟩ := env
  obtain ⟨lt, lc⟩ := s
  simp only at hdue
  cases pub <;> cases hc <;>
    simp only [runIteration, PublishOutcome.isOk] <;>
    split_ifs <;>
    simp_all

/-- Witness for `c3_last_post_time_only_on_success`: a due iteration whose
publish fails keeps the old timer value. -/
theorem c3_last_post_time_only_on_success_witness :
    (runIteration 100 50
      { now := 250, hasClient := true, typeRand := 0, langRand := 0,
        tweet := "t", publish := PublishOutcome.tweepyErr "x" }
      { last_tweet_time := 10, last_check_time := 0 }).1.last_tweet_time = 10 := by
  have h := c3_last_post_time_only_on_success 100 50
    { now := 250, hasClient := true, typeRand := 0, langRand := 0,
      tweet := "t", publish := PublishOutcome.tweepyErr "x" }
    { last_tweet_time := 10, last_check_time := 0 } (by norm_num)
  simpa [PublishOutcome.isOk] using h

/-- Counterexample to claim C7: at time 200 with check_interval 50,
tweet_interval 100 and `last_tweet_time = 10` (a prior successful post)
the publish of the due post fails, so the timer stays at 10 and the
computed sleep argument is `min 50 (100 - (200 - 10)) = -90`, which is
negative — the code has no floor at zero (`time.sleep` would raise on
it). -/
theorem c7_counterexample :
    (runIteration 100 50
      { now := 200, hasClient := true, typeRand := 0, langRand := 0,
        tweet := "t", publish := PublishOutcome.tweepyErr "boom" }
      { last_tweet_time := 10, last_check_time := 0 }).2.1 = -90
    ∧ ((-90 : ℚ) < 0) := by
  constructor
  · norm_num [runIteration]
  · norm_num

/-- Claim C7, amended: the sleep argument is
`min(check_interval, tweet_interval - (now - last_tweet_time))` with no
floor at zero; whenever a client exists, the publish of a due post fails,
and `last_tweet_time` is positive with more than `tweet_interval` elapsed,
the argument is strictly negative. -/
theorem c7_sleep_unfloored_negative (ti ci : ℚ) (env : IterEnv) (s : LoopState)
    (hclient : env.hasClient = true) (hfail : env.publish.isOk = false)
    (hpos : 0 < s.last_tweet_time) (hlate : ti < env.now - s.last_tweet_time) :
    (runIteration ti ci env s).2.1 = min ci (ti - (env.now - s.last_tweet_time))
    ∧ (runIteration ti ci env s).2.1 < 0 := by
  have hdue : ti ≤ env.now - s.last_tweet_time := le_of_lt hlate
  have heq : (runIteration ti ci env s).2.1
      = min ci (ti - (env.now - s.last_tweet_time)) := by
    obtain ⟨now, hc, tr, lr, tw, pub⟩ := env
    obtain ⟨lt, lc⟩ := s
    simp only at hdue hpos hlate
    subst hclient
    cases pub <;>
      simp only [runIteration, PublishOutcome.isOk] <;>
      split_ifs <;>
      simp_all [PublishOutcome.isOk]
  refine ⟨heq, ?_⟩
  rw [heq]
  have hneg : ti - (env.now - s.last_tweet_time) < 0 := by linarith
  exact lt_of_le_of_lt (min_le_right _ _) hneg

/-- Witness for `c7_sleep_unfloored_negative` at a concrete late, failed
iteration. -/
theorem c7_sleep_unfloored_negative_witness :
    (runIteration 100 50
      { now := 300, hasClient := true, typeRand := 0, langRand := 0,
        tweet := "t", publish := PublishOutcome.tweepyErr "x" }
      { last_tweet_time := 10, last_check_time := 0 }).2.1
      = min 50 (100 - (300 - 10))
    ∧ (runIteration 100 50
      { now := 300, hasClient := true, typeRand := 0, langRand := 0,
        tweet := "t", publish := PublishOutcome.tweepyErr "x" }
      { last_tweet_time := 10, last_check_time := 0 }).2.1 < 0 :=
  c7_sleep_unfloored_negative 100 50
    { now := 300, hasClient := true, typeRand := 0, langRand := 0,
      tweet := "t", publish := PublishOutcome.tweepyErr "x" }
    { last_tweet_time := 10, last_check_time := 0 }
    rfl rfl (by norm_num) (by norm_num)

/-- Every static fallback tweet — for any language and tweet type,
including the dynamic entity number — is at most 280 characters. -/
theorem fallbackTweet_length_le (language tweet_type : String) (r : Nat) :
    (fallbackTweet language tweet_type r).length ≤ 280 := by
  have hn : 1000 + r % 9000 < 10000 := by
    have := Nat.mod_lt r (show 0 < 9000 by norm_num)
    omega
  have hrep : (Nat.repr (1000 + r % 9000)).length ≤ 4 :=
    Nat.repr_length _ 4 (by norm_num) hn
  have e1 : ("Just watched entity #" : String).length = 21 := rfl
  have e2 : (" join the network. Welcome to the community. You\x27re not alone here." : String).length = 67 := rfl
  have c1 : ("刚看到entity #" : String).length = 11 := rfl
  have c2 : ("加入了网络。欢迎来到社区。你不是一个人。" : String).length = 20 := rfl
  have m1 : ("Welcome entity #" : String).length = 16 := rfl
  have m2 : ("! 欢迎来到community。" : String).length = 16 := rfl
  unfold fallbackTweet englishFallback chineseFallback mixedFallback
  split_ifs <;>
    simp only [Option.getD, String.length_append] <;>
    first
      | decide
      | omega

/-- Claim C10: for every tweet type, language, random draw and LLM
outcome, `generate_tweet` returns a string of at most 280 characters —
a generated text longer than 280 is cut to its first 277 characters plus
`"..."` (length exactly 280), and every static fallback is itself at most
280 characters. -/
theorem c10_tweet_length_le_280 (tweet_type language : String) (langRand : ℚ)
    (r : Nat) (llmResult : Except String String) :
    (generate_tweet tweet_type language langRand r llmResult).length ≤ 280 := by
  unfold generate_tweet
  cases llmResult with
  | ok tweet =>
    by_cases h : 280 < tweet.length
    · simp only [h, if_pos]
      rw [String.length_append, String.take_eq, String.length_mk, List.length_take]
      have h1 : ("..." : String).length = 3 := rfl
      have h2 := Nat.min_le_left 277 tweet.data.length
      omega
    · simp only [h, if_neg, not_false_eq_true]
      omega
  | error e => exact fallbackTweet_length_le _ _ _

/-- The `find_one({tweet_id: i, replied: true})` test matches exactly when
some document among those with `tweet_id = i` has the replied flag. -/
theorem any_id_replied (l : List MentionDoc) (i : String) :
    (l.any fun x => x.tweet_id == i && x.replied)
      = ((l.filter fun x => x.tweet_id == i).any fun x => x.replied) := by
  induction l with
  | nil => rfl
  | cons d rest ih =>
    cases h : d.tweet_id == i
    · simp only [List.any_cons, List.filter_cons, h, Bool.false_and, Bool.false_or, ih,
        if_neg, Bool.false_eq_true, not_false_eq_true]
    · simp only [List.any_cons, List.filter_cons, h, Bool.true_and, ih, if_pos]

/-- Marking the first document with `tweet_id = j` replied does not change
the documents with a different `tweet_id = i`. -/
theorem markRepliedFirst_filter_ne (l : List MentionDoc) (j i : String)
    (hne : (j == i) = false) :
    (markRepliedFirst l j).filter (fun x => x.tweet_id == i)
      = l.filter (fun x => x.tweet_id == i) := by
  induction l with
  | nil => rfl
  | cons d rest ih =>
    unfold markRepliedFirst
    by_cases h : (d.tweet_id == j) = true
    · have hdj : d.tweet_id = j := by simpa using h
      have hdi : (d.tweet_id == i) = false := by
        subst hdj; exact hne
      simp [h, List.filter_cons, hdi]
    · by_cases h2 : (d.tweet_id == i) = true <;>
        simp [h, h2, List.filter_cons, ih]

/-- Step invariant for claim C4: in store-backed mode, if some document
with `tweet_id = i` is already marked replied, then processing any single
mention leaves the documents with `tweet_id = i` unchanged, leaves the
memory set unchanged, and makes no reply attempt on parent `i`. -/
theorem processMention_store_replied_inv (env : TwitterEnv) (st : BotState) (m : Mention)
    (i : String) (d : XynaeDatabase) (cols : DBCollections)
    (hdb : st.db = some d) (hconn : d.connected = true) (hcols : d.db = some cols)
    (hrep : ((cols.mentions.filter fun x => x.tweet_id == i).any fun x => x.replied) = true) :
    ∃ d2 cols2, (processMention env st m).1.db = some d2 ∧ d2.connected = true
      ∧ d2.db = some cols2
      ∧ cols2.mentions.filter (fun x => x.tweet_id == i)
          = cols.mentions.filter (fun x => x.tweet_id == i)
      ∧ (processMention env st m).1.replied_tweets = st.replied_tweets
      ∧ ∀ a, (processMention env st m).2.1 = some a → a.parent_id ≠ i := by
  cases hb : (cols.mentions.any fun x => x.tweet_id == m.id && x.replied) with
  | true =>
    have heq : processMention env st m = (st, none, false) := by
      unfold processMention
      rw [hdb]
      simp only [hconn, if_true, XynaeDatabase.is_tweet_replied, hcols,
        Bool.true_eq_false, if_false, hb]
    rw [heq]
    exact ⟨d, cols, hdb, hconn, hcols, rfl, rfl, by intro a ha; cases ha⟩
  | false =>
    have hmi : (m.id == i) = false := by
      cases hmi2 : m.id == i with
      | false => rfl
      | true =>
        have : m.id = i := by simpa using hmi2
        subst this
        rw [any_id_replied] at hb
        rw [hb] at hrep
        cases hrep
    have hne : m.id ≠ i := by simpa using hmi
    have hsave : ∀ (u : String), d.save_mention m.id m.text u m.author_id false
        = Except.ok (some (Nat.repr cols.mentions.length),
            { d with db := some { cols with mentions := cols.mentions
                ++ [{ tweet_id := m.id, text := m.text, username := u,
                      author_id := m.author_id, replied := false }] } }) := by
      intro u
      simp only [XynaeDatabase.save_mention, hconn, Bool.true_eq_false, if_false, hcols]
    have hfiltapp : ∀ (u : String),
        List.filter (fun x => x.tweet_id == i) (cols.mentions
            ++ [{ tweet_id := m.id, text := m.text, username := u,
                  author_id := m.author_id, replied := false }])
          = List.filter (fun x => x.tweet_id == i) cols.mentions := by
      intro u
      rw [List.filter_append]
      have h0 : List.filter (fun x => x.tweet_id == i)
          [({ tweet_id := m.id, text := m.text, username := u,
              author_id := m.author_id, replied := false } : MentionDoc)] = [] := by
        simp [hmi]
      rw [h0, List.append_nil]
    unfold processMention
    rw [hdb]
    simp only [hconn, if_true, XynaeDatabase.is_tweet_replied, hcols,
      Bool.true_eq_false, if_false, hb, hsave]
    cases hpo : env.postReply m.id (generate_reply (env.coin m)
        (env.llm m ((env.username m.author_id).getD "unknown"))) with
    | ok rid =>
      simp only [XynaeDatabase.mark_mention_replied, XynaeDatabase.save_reply,
        hconn, Bool.true_eq_false, if_false, if_true]
      refine ⟨_, _, rfl, rfl, rfl, ?_, trivial, ?_⟩
      · rw [markRepliedFirst_filter_ne _ m.id i hmi, hfiltapp]
      · intro a ha
        cases ha
        exact hne
    | tweepyErr e =>
      refine ⟨_, _, rfl, rfl, rfl, ?_, rfl, ?_⟩
      · exact hfiltapp _
      · intro a ha
        cases ha
        exact hne
    | otherErr e =>
      refine ⟨_, _, rfl, rfl, rfl, ?_, rfl, ?_⟩
      · exact hfiltapp _
      · intro a ha
        cases ha
        exact hne

/-- Loop invariant for claim C4: the whole mention loop, in store-backed
mode with a document for `i` already marked replied, changes no document
with `tweet_id = i`, leaves the memory set unchanged, and makes no reply
attempt on parent `i`. -/
theorem processMentions_store_replied_inv (env : TwitterEnv) (ms : List Mention)
    (i : String) :
    ∀ (st : BotState) (d : XynaeDatabase) (cols : DBCollections),
      st.db = some d → d.connected = true → d.db = some cols →
      ((cols.mentions.filter fun x => x.tweet_id == i).any fun x => x.replied) = true →
      ∃ d2 cols2, (processMentions env st ms).1.db = some d2 ∧ d2.connected = true
        ∧ d2.db = some cols2
        ∧ cols2.mentions.filter (fun x => x.tweet_id == i)
            = cols.mentions.filter (fun x => x.tweet_id == i)
        ∧ (processMentions env st ms).1.replied_tweets = st.replied_tweets
        ∧ ∀ a ∈ (processMentions env st ms).2, a.parent_id ≠ i := by
  induction ms with
  | nil =>
    intro st d cols h1 h2 h3 _
    exact ⟨d, cols, h1, h2, h3, rfl, rfl, by intro a ha; cases ha⟩
  | cons m rest ih =>
    intro st d cols h1 h2 h3 h4
    obtain ⟨d2, cols2, hd2, hc2, hcol2, hfilt, hmem, hatt⟩ :=
      processMention_store_replied_inv env st m i d cols h1 h2 h3 h4
    have h4' : ((cols2.mentions.filter fun x => x.tweet_id == i).any
        fun x => x.replied) = true := by
      rw [hfilt]; exact h4
    unfold processMentions
    cases habort : (processMention env st m).2.2 with
    | true =>
      simp only [habort, if_true]
      refine ⟨d2, cols2, hd2, hc2, hcol2, hfilt, hmem, ?_⟩
      intro a ha
      cases hattv : (processMention env st m).2.1 with
      | none => rw [hattv] at ha; cases ha
      | some a0 =>
        rw [hattv] at ha
        rw [List.mem_singleton] at ha
        subst ha
        exact hatt _ hattv
    | false =>
      simp only [habort, Bool.false_eq_true, if_false]
      obtain ⟨d3, cols3, hd3, hc3, hcol3, hfilt3, hmem3, hatt3⟩ :=
        ih (processMention env st m).1 d2 cols2 hd2 hc2 hcol2 h4'
      refine ⟨d3, cols3, hd3, hc3, hcol3, ?_, ?_, ?_⟩
      · rw [hfilt3, hfilt]
      · rw [hmem3, hmem]
      · intro a ha
        rw [List.mem_append] at ha
        cases ha with
        | inl hl =>
          cases hattv : (processMention env st m).2.1 with
          | none => rw [hattv] at hl; cases hl
          | some a0 =>
            rw [hattv] at hl
            rw [List.mem_singleton] at hl
            subst hl
            exact hatt _ hattv
        | inr hr => exact hatt3 a hr

/-- Claim C4: in store-backed mode, for a mention `M` already marked
replied in the store, a `check_and_reply_to_mentions` run that fetches `M`
publishes no reply with parent `M` (no `create_tweet` call is made for it)
and leaves the store documents for `M` unchanged. -/
theorem c4_no_second_reply (enum : List String → List String) (env : TwitterEnv)
    (st : BotState) (M : Mention) (d : XynaeDatabase) (cols : DBCollections)
    (hdb : st.db = some d) (hconn : d.connected = true) (hcols : d.db = some cols)
    (hM : M ∈ env.mentions)
    (hrep : (cols.mentions.any fun x => x.tweet_id == M.id && x.replied) = true) :
    (∀ a ∈ (check_and_reply_to_mentions enum (some env) st).2, a.parent_id ≠ M.id)
    ∧ ∃ d2 cols2, (check_and_reply_to_mentions enum (some env) st).1.db = some d2
        ∧ d2.db = some cols2
        ∧ cols2.mentions.filter (fun x => x.tweet_id == M.id)
            = cols.mentions.filter (fun x => x.tweet_id == M.id) := by
  rw [any_id_replied] at hrep
  cases hme : env.me with
  | none =>
    simp only [check_and_reply_to_mentions, hme]
    constructor
    · intro a ha; cases ha
    · exact ⟨d, cols, hdb, hcols, rfl⟩
  | some uid =>
    simp only [check_and_reply_to_mentions, hme]
    by_cases hemp : env.mentions.isEmpty = true
    · rw [if_pos hemp]
      constructor
      · intro a ha; cases ha
      · exact ⟨d, cols, hdb, hcols, rfl⟩
    · rw [if_neg hemp]
      obtain ⟨d2, cols2, hd2, hc2, hcol2, hfilt, _, hatt⟩ :=
        processMentions_store_replied_inv env env.mentions M.id st d cols hdb hconn hcols hrep
      have hact : dbActive (processMentions env st env.mentions).1 = true := by
        unfold dbActive
        rw [hd2]
        exact hc2
      have hcond : ¬(dbActive (processMentions env st env.mentions).1 = false
          ∧ 100 < (processMentions env st env.mentions).1.replied_tweets.length) := by
        intro hc
        rw [hact] at hc
        cases hc.1
      rw [if_neg hcond]
      exact ⟨hatt, d2, cols2, hd2, hcol2, hfilt⟩

/-- Witness for `c4_no_second_reply`: a store already holding mention
`"123"` marked replied, and a fetch of the same mention. -/
theorem c4_no_second_reply_witness :
    (∀ a ∈ (check_and_reply_to_mentions id
        (some { me := some "42", mentions := [{ id := "123", text := "hi", author_id := "7" }],
                username := fun _ => some "alice", coin := fun _ => 0,
                llm := fun _ _ => Except.ok "a reply", postReply := fun _ _ => PublishOutcome.ok "900" })
        { replied_tweets := [],
          db := some (XynaeDatabase.connect "xynae"
            (some { tweets := [], replies := [],
                    mentions := [{ tweet_id := "123", text := "hi", username := "alice",
                                   author_id := "7", replied := true }],
                    conversations := [] })) }).2, a.parent_id ≠ "123")
    ∧ ∃ d2 cols2, (check_and_reply_to_mentions id
        (some { me := some "42", mentions := [{ id := "123", text := "hi", author_id := "7" }],
                username := fun _ => some "alice", coin := fun _ => 0,
                llm := fun _ _ => Except.ok "a reply", postReply := fun _ _ => PublishOutcome.ok "900" })
        { replied_tweets := [],
          db := some (XynaeDatabase.connect "xynae"
            (some { tweets := [], replies := [],
                    mentions := [{ tweet_id := "123", text := "hi", username := "alice",
                                   author_id := "7", replied := true }],
                    conversations := [] })) }).1.db = some d2
        ∧ d2.db = some cols2
        ∧ cols2.mentions.filter (fun x => x.tweet_id == "123")
            = List.filter (fun x => x.tweet_id == "123")
                [{ tweet_id := "123", text := "hi", username := "alice",
                   author_id := "7", replied := true }] :=
  c4_no_second_reply id
    { me := some "42", mentions := [{ id := "123", text := "hi", author_id := "7" }],
      username := fun _ => some "alice", coin := fun _ => 0,
      llm := fun _ _ => Except.ok "a reply", postReply := fun _ _ => PublishOutcome.ok "900" }
    { replied_tweets := [],
      db := some (XynaeDatabase.connect "xynae"
        (some { tweets := [], replies := [],
                mentions := [{ tweet_id := "123", text := "hi", username := "alice",
                               author_id := "7", replied := true }],
                conversations := [] })) }
    { id := "123", text := "hi", author_id := "7" }
    (XynaeDatabase.connect "xynae"
      (some { tweets := [], replies := [],
              mentions := [{ tweet_id := "123", text := "hi", username := "alice",
                             author_id := "7", replied := true }],
              conversations := [] }))
    { tweets := [], replies := [],
      mentions := [{ tweet_id := "123", text := "hi", username := "alice",
                     author_id := "7", replied := true }],
      conversations := [] }
    rfl rfl rfl (List.mem_singleton.mpr rfl) (by decide)

/-- In store-backed mode, a fetched mention not yet marked replied always
reaches the reply publish: `create_tweet` is called once for it, with the
generated reply text, whatever the publish outcome. -/
theorem processMention_store_unreplied_attempt (env : TwitterEnv) (st : BotState)
    (M : Mention) (d : XynaeDatabase) (cols : DBCollections)
    (hdb : st.db = some d) (hconn : d.connected = true) (hcols : d.db = some cols)
    (hnotrep : (cols.mentions.any fun x => x.tweet_id == M.id && x.replied) = false) :
    (processMention env st M).2.1
      = some { parent_id := M.id,
               text := generate_reply (env.coin M)
                 (env.llm M ((env.username M.author_id).getD "unknown")),
               outcome := env.postReply M.id (generate_reply (env.coin M)
                 (env.llm M ((env.username M.author_id).getD "unknown"))) } := by
  have hsave : ∀ (u : String), d.save_mention M.id M.text u M.author_id false
      = Except.ok (some (Nat.repr cols.mentions.length),
          { d with db := some { cols with mentions := cols.mentions
              ++ [{ tweet_id := M.id, text := M.text, username := u,
                    author_id := M.author_id, replied := false }] } }) := by
    intro u
    simp only [XynaeDatabase.save_mention, hconn, Bool.true_eq_false, if_false, hcols]
  unfold processMention
  rw [hdb]
  simp only [hconn, if_true, XynaeDatabase.is_tweet_replied, hcols,
    Bool.true_eq_false, if_false, hnotrep, hsave]
  cases hpo : env.postReply M.id (generate_reply (env.coin M)
      (env.llm M ((env.username M.author_id).getD "unknown"))) with
  | ok rid =>
    simp only [XynaeDatabase.mark_mention_replied, XynaeDatabase.save_reply,
      hconn, Bool.true_eq_false, if_false, if_true]
  | tweepyErr e => rfl
  | otherErr e => rfl

/-- In store-backed mode, processing an unreplied mention whose reply
publish fails with a Tweepy platform error persists the mention document
with `replied = false` (it was saved before the reply was generated),
marks nothing replied, saves no reply record, leaves the memory set
unchanged, and does not abort the loop. -/
theorem processMention_store_publish_fail (env : TwitterEnv) (st : BotState)
    (M : Mention) (d : XynaeDatabase) (cols : DBCollections) (emsg : String)
    (hdb : st.db = some d) (hconn : d.connected = true) (hcols : d.db = some cols)
    (hnotrep : (cols.mentions.any fun x => x.tweet_id == M.id && x.replied) = false)
    (hpub : env.postReply M.id (generate_reply (env.coin M)
        (env.llm M ((env.username M.author_id).getD "unknown")))
      = PublishOutcome.tweepyErr emsg) :
    processMention env st M
      = ({ st with
           db := some
             { connected := true,
               database_name := d.database_name,
               db := some
                 { cols with
                   mentions := cols.mentions ++
                     [{ tweet_id := M.id,
                        text := M.text,
                        username := (env.username M.author_id).getD "unknown",
                        author_id := M.author_id,
                        replied := false }] } } },
         some { parent_id := M.id,
                text := generate_reply (env.coin M)
                  (env.llm M ((env.username M.author_id).getD "unknown")),
                outcome := PublishOutcome.tweepyErr emsg },
         false) := by
  have hsave : ∀ (u : String), d.save_mention M.id M.text u M.author_id false
      = Except.ok (some (Nat.repr cols.mentions.length),
          { d with db := some { cols with mentions := cols.mentions
              ++ [{ tweet_id := M.id, text := M.text, username := u,
                    author_id := M.author_id, replied := false }] } }) := by
    intro u
    simp only [XynaeDatabase.save_mention, hconn, Bool.true_eq_false, if_false, hcols]
  unfold processMention
  rw [hdb]
  simp only [hconn, if_true, XynaeDatabase.is_tweet_replied, hcols,
    Bool.true_eq_false, if_false, hnotrep, hsave, hpub]

/-- A check cycle that fetches exactly one mention, not marked replied in
the connected store, attempts a reply to it: the attempt list contains an
attempt with that mention as parent. -/
theorem check_singleton_attempt (enum : List String → List String) (env : TwitterEnv)
    (st : BotState) (M : Mention) (d : XynaeDatabase) (cols : DBCollections) (uid : String)
    (hdb : st.db = some d) (hconn : d.connected = true) (hcols : d.db = some cols)
    (hme : env.me = some uid) (hms : env.mentions = [M])
    (hnotrep : (cols.mentions.any fun x => x.tweet_id == M.id && x.replied) = false) :
    ∃ a ∈ (check_and_reply_to_mentions enum (some env) st).2, a.parent_id = M.id := by
  have hatt := processMention_store_unreplied_attempt env st M d cols hdb hconn hcols hnotrep
  have h2 : ∃ a, (processMentions env st [M]).2 = [a] ∧ a.parent_id = M.id := by
    unfold processMentions
    cases habort : (processMention env st M).2.2 with
    | true =>
      simp only [habort, if_true, hatt]
      exact ⟨_, rfl, rfl⟩
    | false =>
      simp only [habort, Bool.false_eq_true, if_false, hatt, processMentions,
        List.append_nil]
      exact ⟨_, rfl, rfl⟩
  obtain ⟨a, ha2, hpid⟩ := h2
  simp only [check_and_reply_to_mentions, hme, hms]
  rw [if_neg (by simp : ¬(([M] : List Mention).isEmpty = true))]
  by_cases hcond : (dbActive (processMentions env st [M]).1 = false
      ∧ 100 < (processMentions env st [M]).1.replied_tweets.length)
  · rw [if_pos hcond]
    refine ⟨a, ?_, hpid⟩
    dsimp only
    rw [ha2]
    exact List.mem_singleton.mpr rfl
  · rw [if_neg hcond]
    refine ⟨a, ?_, hpid⟩
    rw [ha2]
    exact List.mem_singleton.mpr rfl

/-- Claim C5: in store-backed mode, when the reply publish for a fetched,
not-yet-replied mention fails with a Tweepy platform error, the cycle
leaves the dedup state unset — the mention document, persisted with
`replied = false` before reply generation, is still unreplied, no reply
record is saved, and the memory set is untouched — and a following cycle
fetching the same mention attempts a reply to it again. -/
theorem c5_retry_after_publish_failure (enum : List String → List String)
    (env1 : TwitterEnv) (st : BotState) (M : Mention) (d : XynaeDatabase)
    (cols : DBCollections) (uid : String) (emsg : String)
    (hdb : st.db = some d) (hconn : d.connected = true) (hcols : d.db = some cols)
    (hme : env1.me = some uid) (hms : env1.mentions = [M])
    (hnotrep : (cols.mentions.any fun x => x.tweet_id == M.id && x.replied) = false)
    (hpub : ∀ txt, env1.postReply M.id txt = PublishOutcome.tweepyErr emsg) :
    ∃ d1 cols1,
      (check_and_reply_to_mentions enum (some env1) st).1.db = some d1
      ∧ d1.connected = true
      ∧ d1.db = some cols1
      ∧ (cols1.mentions.any fun x => x.tweet_id == M.id && x.replied) = false
      ∧ cols1.mentions = cols.mentions ++
          [{ tweet_id := M.id,
             text := M.text,
             username := (env1.username M.author_id).getD "unknown",
             author_id := M.author_id,
             replied := false }]
      ∧ cols1.replies = cols.replies
      ∧ (check_and_reply_to_mentions enum (some env1) st).1.replied_tweets
          = st.replied_tweets
      ∧ (check_and_reply_to_mentions enum (some env1) st).2
          = [{ parent_id := M.id,
               text := generate_reply (env1.coin M)
                 (env1.llm M ((env1.username M.author_id).getD "unknown")),
               outcome := PublishOutcome.tweepyErr emsg }]
      ∧ ∀ (env2 : TwitterEnv) (uid2 : String), env2.me = some uid2 →
          env2.mentions = [M] →
          ∃ a ∈ (check_and_reply_to_mentions enum (some env2)
              (check_and_reply_to_mentions enum (some env1) st).1).2,
            a.parent_id = M.id := by
  have h1 := processMention_store_publish_fail env1 st M d cols emsg hdb hconn hcols
    hnotrep (hpub _)
  have h2 : processMentions env1 st [M]
      = ({ st with
           db := some
             { connected := true,
               database_name := d.database_name,
               db := some
                 { cols with
                   mentions := cols.mentions ++
                     [{ tweet_id := M.id,
                        text := M.text,
                        username := (env1.username M.author_id).getD "unknown",
                        author_id := M.author_id,
                        replied := false }] } } },
         [{ parent_id := M.id,
            text := generate_reply (env1.coin M)
              (env1.llm M ((env1.username M.author_id).getD "unknown")),
            outcome := PublishOutcome.tweepyErr emsg }]) := by
    unfold processMentions
    rw [h1]
    simp [processMentions]
  have h3 : check_and_reply_to_mentions enum (some env1) st
      = ({ st with
           db := some
             { connected := true,
               database_name := d.database_name,
               db := some
                 { cols with
                   mentions := cols.mentions ++
                     [{ tweet_id := M.id,
                        text := M.text,
                        username := (env1.username M.author_id).getD "unknown",
                        author_id := M.author_id,
                        replied := false }] } } },
         [{ parent_id := M.id,
            text := generate_reply (env1.coin M)
              (env1.llm M ((env1.username M.author_id).getD "unknown")),
            outcome := PublishOutcome.tweepyErr emsg }]) := by
    simp only [check_and_reply_to_mentions, hme, hms]
    rw [if_neg (by simp : ¬(([M] : List Mention).isEmpty = true))]
    rw [h2]
    rw [if_neg (by intro hcc; simp [dbActive] at hcc)]
  have h4 : ((cols.mentions ++
      [({ tweet_id := M.id, text := M.text,
          username := (env1.username M.author_id).getD "unknown",
          author_id := M.author_id, replied := false } : MentionDoc)]).any
        fun x => x.tweet_id == M.id && x.replied) = false := by
    rw [List.any_append]
    simp [hnotrep]
  rw [h3]
  refine ⟨_, _, rfl, rfl, rfl, h4, rfl, rfl, rfl, rfl, ?_⟩
  intro env2 uid2 hme2 hms2
  exact check_singleton_attempt enum env2 _ M _ _ uid2 rfl rfl rfl hme2 hms2 h4

/-- Concrete mention for the claim C5 witness. -/
def c5Mention : Mention := { id := "123", text := "hey", author_id := "7" }

/-- Concrete check-cycle inputs for the claim C5 witness: the reply
publish always fails with a Tweepy error. -/
def c5Env : TwitterEnv :=
  { me := some "42", mentions := [c5Mention],
    username := fun _ => some "bob", coin := fun _ => 0,
    llm := fun _ _ => Except.ok "my reply",
    postReply := fun _ _ => PublishOutcome.tweepyErr "rate limited" }

/-- Empty collections for the claim C5 witness. -/
def c5Cols : DBCollections :=
  { tweets := [], replies := [], mentions := [], conversations := [] }

/-- Connected store for the claim C5 witness. -/
def c5Store : XynaeDatabase := XynaeDatabase.connect "xynae" (some c5Cols)

/-- Instance state for the claim C5 witness. -/
def c5State : BotState := { replied_tweets := [], db := some c5Store }

/-- Witness for `c5_retry_after_publish_failure` at the concrete inputs. -/
theorem c5_retry_after_publish_failure_witness :
    ∃ d1 cols1,
      (check_and_reply_to_mentions id (some c5Env) c5State).1.db = some d1
      ∧ d1.connected = true
      ∧ d1.db = some cols1
      ∧ (cols1.mentions.any fun x => x.tweet_id == c5Mention.id && x.replied) = false
      ∧ cols1.mentions = c5Cols.mentions ++
          [{ tweet_id := c5Mention.id,
             text := c5Mention.text,
             username := (c5Env.username c5Mention.author_id).getD "unknown",
             author_id := c5Mention.author_id,
             replied := false }]
      ∧ cols1.replies = c5Cols.replies
      ∧ (check_and_reply_to_mentions id (some c5Env) c5State).1.replied_tweets
          = c5State.replied_tweets
      ∧ (check_and_reply_to_mentions id (some c5Env) c5State).2
          = [{ parent_id := c5Mention.id,
               text := generate_reply (c5Env.coin c5Mention)
                 (c5Env.llm c5Mention ((c5Env.username c5Mention.author_id).getD "unknown")),
               outcome := PublishOutcome.tweepyErr "rate limited" }]
      ∧ ∀ (env2 : TwitterEnv) (uid2 : String), env2.me = some uid2 →
          env2.mentions = [c5Mention] →
          ∃ a ∈ (check_and_reply_to_mentions id (some env2)
              (check_and_reply_to_mentions id (some c5Env) c5State).1).2,
            a.parent_id = c5Mention.id :=
  c5_retry_after_publish_failure id c5Env c5State c5Mention c5Store c5Cols "42"
    "rate limited" rfl rfl rfl rfl rfl rfl (fun _ => rfl)

/-- Membership after a Python set add: an element of the enlarged set was
already present or is the added id. -/
theorem mem_setAdd (l : List String) (x y : String) (h : y ∈ setAdd l x) :
    y ∈ l ∨ y = x := by
  unfold setAdd at h
  by_cases hc : l.contains x = true
  · rw [if_pos hc] at h
    exact Or.inl h
  · rw [if_neg hc] at h
    rw [List.mem_append] at h
    cases h with
    | inl h => exact Or.inl h
    | inr h => exact Or.inr (List.mem_singleton.mp h)

/-- In memory-only mode (no store, or a store whose connection failed),
processing one mention leaves the database field unchanged and either
leaves the memory dedup set unchanged or adds the processed mention id. -/
theorem processMention_memory (env : TwitterEnv) (st : BotState) (m : Mention)
    (hmem : dbActive st = false) :
    (processMention env st m).1.db = st.db
    ∧ ((processMention env st m).1.replied_tweets = st.replied_tweets
       ∨ (processMention env st m).1.replied_tweets = setAdd st.replied_tweets m.id) := by
  cases hsd : st.db with
  | none =>
    cases hc : st.replied_tweets.contains m.id with
    | true =>
      have heq : processMention env st m = (st, none, false) := by
        unfold processMention
        dsimp only
        rw [hsd, hc]
      rw [heq]
      exact ⟨hsd, Or.inl rfl⟩
    | false =>
      cases hpo : env.postReply m.id (generate_reply (env.coin m)
          (env.llm m ((env.username m.author_id).getD "unknown"))) with
      | ok rid =>
        have heq : processMention env st m
            = ({ st with replied_tweets := setAdd st.replied_tweets m.id },
               some { parent_id := m.id,
                      text := generate_reply (env.coin m)
                        (env.llm m ((env.username m.author_id).getD "unknown")),
                      outcome := PublishOutcome.ok rid },
               false) := by
          unfold processMention
          dsimp only
          rw [hsd, hc, hpo]
          simp only [hsd]
        rw [heq]
        exact ⟨hsd, Or.inr rfl⟩
      | tweepyErr e =>
        have heq : processMention env st m
            = (st, some { parent_id := m.id,
                          text := generate_reply (env.coin m)
                            (env.llm m ((env.username m.author_id).getD "unknown")),
                          outcome := PublishOutcome.tweepyErr e },
               false) := by
          unfold processMention
          dsimp only
          rw [hsd, hc, hpo]
        rw [heq]
        exact ⟨hsd, Or.inl rfl⟩
      | otherErr e =>
        have heq : processMention env st m
            = (st, some { parent_id := m.id,
                          text := generate_reply (env.coin m)
                            (env.llm m ((env.username m.author_id).getD "unknown")),
                          outcome := PublishOutcome.otherErr e },
               true) := by
          unfold processMention
          dsimp only
          rw [hsd, hc, hpo]
        rw [heq]
        exact ⟨hsd, Or.inl rfl⟩
  | some d =>
    have hdc : d.connected = false := by
      unfold dbActive at hmem
      rw [hsd] at hmem
      exact hmem
    cases hc : st.replied_tweets.contains m.id with
    | true =>
      have heq : processMention env st m = (st, none, false) := by
        unfold processMention
        dsimp only
        rw [hsd]
        simp only [hdc, Bool.false_eq_true, if_false]
        rw [hc]
      rw [heq]
      exact ⟨hsd, Or.inl rfl⟩
    | false =>
      cases hpo : env.postReply m.id (generate_reply (env.coin m)
          (env.llm m ((env.username m.author_id).getD "unknown"))) with
      | ok rid =>
        have heq : processMention env st m
            = ({ st with replied_tweets := setAdd st.replied_tweets m.id },
               some { parent_id := m.id,
                      text := generate_reply (env.coin m)
                        (env.llm m ((env.username m.author_id).getD "unknown")),
                      outcome := PublishOutcome.ok rid },
               false) := by
          unfold processMention
          rw [hsd]
          dsimp only
          simp only [hdc, Bool.false_eq_true, if_false]
          rw [hc, hpo]
          simp only [hsd, hdc, Bool.false_eq_true, if_false]
        rw [heq]
        exact ⟨hsd, Or.inr rfl⟩
      | tweepyErr e =>
        have heq : processMention env st m
            = (st, some { parent_id := m.id,
                          text := generate_reply (env.coin m)
                            (env.llm m ((env.username m.author_id).getD "unknown")),
                          outcome := PublishOutcome.tweepyErr e },
               false) := by
          unfold processMention
          rw [hsd]
          dsimp only
          simp only [hdc, Bool.false_eq_true, if_false]
          rw [hc, hpo]
        rw [heq]
        exact ⟨hsd, Or.inl rfl⟩
      | otherErr e =>
        have heq : processMention env st m
            = (st, some { parent_id := m.id,
                          text := generate_reply (env.coin m)
                            (env.llm m ((env.username m.author_id).getD "unknown")),
                          outcome := PublishOutcome.otherErr e },
               true) := by
          unfold processMention
          rw [hsd]
          dsimp only
          simp only [hdc, Bool.false_eq_true, if_false]
          rw [hc, hpo]
        rw [heq]
        exact ⟨hsd, Or.inl rfl⟩

/-- Memory-mode loop invariant: the database field is unchanged and every
retained id was already present or is one of the processed mention ids. -/
theorem processMentions_memory (env : TwitterEnv) (ms : List Mention) :
    ∀ st : BotState, dbActive st = false →
      (processMentions env st ms).1.db = st.db
      ∧ ∀ x ∈ (processMentions env st ms).1.replied_tweets,
          x ∈ st.replied_tweets ∨ x ∈ ms.map (fun m => m.id) := by
  induction ms with
  | nil => intro st _; exact ⟨rfl, fun x hx => Or.inl hx⟩
  | cons m rest ih =>
    intro st h
    obtain ⟨hdb1, hrt1⟩ := processMention_memory env st m h
    have h1 : dbActive (processMention env st m).1 = false := by
      unfold dbActive at h ⊢
      rw [hdb1]
      exact h
    have hsub : ∀ x ∈ (processMention env st m).1.replied_tweets,
        x ∈ st.replied_tweets ∨ x = m.id := by
      intro x hx
      cases hrt1 with
      | inl he => rw [he] at hx; exact Or.inl hx
      | inr he => rw [he] at hx; exact mem_setAdd _ _ _ hx
    unfold processMentions
    cases habort : (processMention env st m).2.2 with
    | true =>
      simp only [habort, if_true]
      refine ⟨hdb1, ?_⟩
      intro x hx
      rcases hsub x hx with h' | h'
      · exact Or.inl h'
      · subst h'
        exact Or.inr (by simp)
    | false =>
      simp only [habort, Bool.false_eq_true, if_false]
      obtain ⟨hdb2, hrt2⟩ := ih (processMention env st m).1 h1
      refine ⟨by rw [hdb2, hdb1], ?_⟩
      intro x hx
      rcases hrt2 x hx with h' | h'
      · rcases hsub x h' with h'' | h''
        · exact Or.inl h''
        · subst h''
          exact Or.inr (by simp)
      · exact Or.inr (by rw [List.map_cons]; exact List.mem_cons_of_mem _ h')

/-- Claim C2, amended: in memory-only mode, a `check_and_reply_to_mentions`
call keeps the dedup set bounded by 100 entries, and every retained id was
previously retained or came from the fetched mentions.  Which entries
survive the truncation is the tail of the runtime set iteration order
`enum` — an arbitrary permutation, not insertion order — so retention of
exactly the 100 most recent ids is not guaranteed. -/
theorem c2_bounded_dedup (enum : List String → List String)
    (henum : ∀ l, (enum l).Perm l) (env : TwitterEnv) (st : BotState)
    (hmem : dbActive st = false) (hpre : st.replied_tweets.length ≤ 100) :
    ((check_and_reply_to_mentions enum (some env) st).1.replied_tweets.length ≤ 100)
    ∧ ∀ x ∈ (check_and_reply_to_mentions enum (some env) st).1.replied_tweets,
        x ∈ st.replied_tweets ∨ x ∈ env.mentions.map (fun m => m.id) := by
  cases hme : env.me with
  | none =>
    simp only [check_and_reply_to_mentions, hme]
    exact ⟨hpre, fun x hx => Or.inl hx⟩
  | some uid =>
    simp only [check_and_reply_to_mentions, hme]
    by_cases hemp : env.mentions.isEmpty = true
    · rw [if_pos hemp]
      exact ⟨hpre, fun x hx => Or.inl hx⟩
    · rw [if_neg hemp]
      obtain ⟨hdb2, hsub⟩ := processMentions_memory env env.mentions st hmem
      by_cases hcond : (dbActive (processMentions env st env.mentions).1 = false
          ∧ 100 < (processMentions env st env.mentions).1.replied_tweets.length)
      · rw [if_pos hcond]
        constructor
        · dsimp only
          unfold truncateRepliedSet
          rw [List.length_drop]
          omega
        · intro x hx
          dsimp only at hx
          unfold truncateRepliedSet at hx
          have hx2 : x ∈ enum (processMentions env st env.mentions).1.replied_tweets :=
            List.mem_of_mem_drop hx
          have hx3 : x ∈ (processMentions env st env.mentions).1.replied_tweets :=
            ((henum _).mem_iff).mp hx2
          exact hsub x hx3
      · rw [if_neg hcond]
        have hact : dbActive (processMentions env st env.mentions).1 = false := by
          unfold dbActive at hmem ⊢
          rw [hdb2]
          exact hmem
        constructor
        · by_contra hlen
          exact hcond ⟨hact, by omega⟩
        · exact hsub

/-- Witness for `c2_bounded_dedup`: memory-only mode, identity iteration
order, one fetched mention, empty starting set. -/
theorem c2_bounded_dedup_witness :
    ((check_and_reply_to_mentions id
        (some { me := some "42", mentions := [{ id := "1", text := "t", author_id := "a" }],
                username := fun _ => some "u", coin := fun _ => 0,
                llm := fun _ _ => Except.ok "r",
                postReply := fun _ _ => PublishOutcome.ok "9" })
        { replied_tweets := [], db := none }).1.replied_tweets.length ≤ 100)
    ∧ ∀ x ∈ (check_and_reply_to_mentions id
        (some { me := some "42", mentions := [{ id := "1", text := "t", author_id := "a" }],
                username := fun _ => some "u", coin := fun _ => 0,
                llm := fun _ _ => Except.ok "r",
                postReply := fun _ _ => PublishOutcome.ok "9" })
        { replied_tweets := [], db := none }).1.replied_tweets,
        x ∈ ({ replied_tweets := [], db := none } : BotState).replied_tweets
        ∨ x ∈ ([{ id := "1", text := "t", author_id := "a" }] : List Mention).map
            (fun m => m.id) :=
  c2_bounded_dedup id (fun l => List.Perm.refl l)
    { me := some "42", mentions := [{ id := "1", text := "t", author_id := "a" }],
      username := fun _ => some "u", coin := fun _ => 0,
      llm := fun _ _ => Except.ok "r",
      postReply := fun _ _ => PublishOutcome.ok "9" }
    { replied_tweets := [], db := none }
    rfl (by simp)

/-- Fresh mention with a numeric id for the claim C2 counterexample. -/
def c2Mention (i : Nat) : Mention :=
  { id := Nat.repr i, text := "t", author_id := "a" }

/-- Check-cycle inputs for run `k` of the claim C2 counterexample: a batch
of 10 fresh mentions with ids `10*k+1 .. 10*k+10`, every reply publish
succeeding. -/
def c2EnvFor (k : Nat) : TwitterEnv :=
  { me := some "42",
    mentions := (List.range 10).map (fun j => c2Mention (10 * k + j + 1)),
    username := fun _ => some "u", coin := fun _ => 0,
    llm := fun _ _ => Except.ok "r",
    postReply := fun _ _ => PublishOutcome.ok "9" }

/-- Eleven consecutive memory-only check cycles over fresh mentions with
ids 1..110, with the set iteration order reversed relative to insertion
order — a legitimate instantiation, since Python guarantees no iteration
order for sets (string hashing is even randomized per process). -/
def c2Sim : Nat → BotState
  | 0 => { replied_tweets := [], db := none }
  | k + 1 => (check_and_reply_to_mentions List.reverse (some (c2EnvFor k)) (c2Sim k)).1

/-- Counterexample to claim C2: after the 110 ids 1..110 have been
processed in memory-only mode, the truncation
`set(list(replied_tweets)[-100:])` keeps the last 100 entries of the
arbitrary set iteration order; with the order reversed it retains the
oldest id "1" and has evicted the newest id "110", while the claim says
exactly the 100 most recently added ids (11..110) are retained, with the
oldest evicted in insertion order. -/
theorem c2_counterexample :
    (c2Sim 11).replied_tweets.length = 100
    ∧ (c2Sim 11).replied_tweets.contains "1" = true
    ∧ (c2Sim 11).replied_tweets.contains "110" = false := by
  refine ⟨?_, ?_, ?_⟩ <;> decide
